import Mathlib

/-!
# Work Order Number Allocator — verification development

Shallow embedding of the work-order-number allocator of the `mgsem`
maintenance-tracking application, together with its administrative reset
operations, the read-only preview, and the work-order creation endpoint's
identifier branching.

The database state is modelled as a pair of
* the `work_type_counters` table — an association list from category code to
  the stored counter, and
* the `work_orders` table — the list of issued `work_order_no` strings
  (the only column the allocator reads).

`resetWorkTypeCounter`, `resetAllWorkTypeCounters` and the `padStart(3, '0')`
formatting step are embedded from `src/app/utils/workOrderNumber.ts`; the
creation endpoint's branching is embedded from the `POST /api/work-orders`
handler.  The reconciling allocator itself (`generateWorkOrderNumber` with a
code override, and `previewNextWorkOrderNumber`) and the work-type → code
lookup `getWorkTypeCode` are not present in the source snapshot — only their
callers are — and are modelled from the spec, as marked on each definition.
-/

/-- Embeds JavaScript `String.prototype.trim()`: removes whitespace from both
ends of the string. -/
def jsTrim (s : String) : String :=
  ⟨((s.data.dropWhile Char.isWhitespace).reverse.dropWhile Char.isWhitespace).reverse⟩

/-- Value of a non-empty list of decimal digit characters, most significant
first (the `[0-9]+` suffix of a work-order identifier). -/
def digitsVal (ds : List Char) : Nat :=
  ds.foldl (fun a c => a * 10 + (c.toNat - '0'.toNat)) 0

/-- Case-insensitive equality of two character lists (the scanner compares the
category-code portion of an identifier case-insensitively). -/
def lowerEqChars (a b : List Char) : Bool :=
  a.map Char.toLower == b.map Char.toLower

/-- Modelled from the spec: the Issued-Identifier Scanner's per-row pattern
match (§4.2) — an identifier contributes its sequence number exactly when it
has the form `{category_code}-{digits}`, case-insensitive on the code and
digits-only on the suffix; anything else is ignored. -/
def seqOfOrder (code order : String) : Option Nat :=
  let n := code.data.length
  if lowerEqChars (order.data.take n) code.data then
    match order.data.drop n with
    | '-' :: ds => if ds ≠ [] ∧ ds.all Char.isDigit then some (digitsVal ds) else none
    | _ => none
  else none

/-- Modelled from the spec: the Issued-Identifier Scanner (§4.2) — the maximum
sequence number among existing work-order identifiers matching
`{category_code}-{digits}`, and 0 when none match. -/
def latestFromOrders (code : String) (orders : List String) : Nat :=
  orders.foldr (fun o acc => max ((seqOfOrder code o).getD 0) acc) 0

/-- Lookup in the `work_type_counters` association list. -/
def lookupCounter : List (String × Nat) → String → Option Nat
  | [], _ => none
  | (k, v) :: rest, code => if k = code then some v else lookupCounter rest code

/-- Stored counter for a category code, an absent row reading as 0. -/
def getCounter (cs : List (String × Nat)) (code : String) : Nat :=
  (lookupCounter cs code).getD 0

/-- Upsert into `work_type_counters`: overwrite the row for `code` if present,
else append a fresh row (the `INSERT … ON CONFLICT … DO UPDATE`). -/
def setCounter : List (String × Nat) → String → Nat → List (String × Nat)
  | [], code, v => [(code, v)]
  | (k, w) :: rest, code, v =>
      if k = code then (code, v) :: rest else (k, w) :: setCounter rest code v

/-- Embeds `resetWorkTypeCounter` (src/app/utils/workOrderNumber.ts): the SQL
`UPDATE work_type_counters SET counter = 0 WHERE work_type_code = $1` — rows
for other codes are untouched and no row is inserted. -/
def resetWorkTypeCounter (cs : List (String × Nat)) (code : String) :
    List (String × Nat) :=
  cs.map (fun p => if p.1 = code then (p.1, 0) else p)

/-- Embeds `resetAllWorkTypeCounters` (src/app/utils/workOrderNumber.ts): the
SQL `UPDATE work_type_counters SET counter = 0` over every row. -/
def resetAllWorkTypeCounters (cs : List (String × Nat)) : List (String × Nat) :=
  cs.map (fun p => (p.1, 0))

/-- First letters of the whitespace-separated words of a string, upper-cased —
the fallback abbreviation for unrecognised work-type names. -/
def wordStarts : List Char → Bool → List Char
  | [], _ => []
  | c :: rest, atStart =>
      if c.isWhitespace then wordStarts rest true
      else (if atStart then [c.toUpper] else []) ++ wordStarts rest false

/-- Modelled from the spec: the work-type-name → category-code lookup
(`getWorkTypeCode` in `src/app/utils/excel.ts`, absent from the snapshot).
The spec fixes `"Electrical" ↦ "E"` and says unknown names fall back to a
derived abbreviation such as the first letters of the words (§3). -/
def getWorkTypeCode (workType : String) : String :=
  if workType = "Electrical" then "E" else ⟨wordStarts workType.data true⟩

/-- Modelled from the spec: category-code resolution inside the allocator
(§4.3 step 1) — use the explicit override when it is provided and non-empty
after trimming, else derive the code from the work-type name. -/
def resolveCode (workType : String) (override : Option String) : String :=
  match override with
  | some o => if jsTrim o ≠ "" then jsTrim o else getWorkTypeCode workType
  | none => getWorkTypeCode workType

/-- Embeds `String(counter).padStart(3, '0')`
(src/app/utils/workOrderNumber.ts line 25): prepend `'0'` characters until the
string is at least 3 characters long; a string already that long is returned
unchanged. -/
def padStart3 (s : String) : String :=
  if 3 ≤ s.data.length then s else ⟨List.replicate (3 - s.data.length) '0' ++ s.data⟩

/-- Decimal rendering of the sequence number followed by 3-wide zero padding,
as in the source's `String(counter).padStart(3, '0')`. -/
def pad3 (n : Nat) : String :=
  padStart3 (toString n)

/-- Database state seen by the allocator: the counter table and the issued
work-order identifiers. -/
structure DB where
  counters : List (String × Nat)
  orders : List String
deriving DecidableEq

/-- The sequence number the next allocation for `code` would receive:
`max(storedCounter, latestFromOrders) + 1` (§4.3 step 4). -/
def nextSeq (db : DB) (code : String) : Nat :=
  max (getCounter db.counters code) (latestFromOrders code db.orders) + 1

/-- Modelled from the spec: the reconciling allocator
`generateWorkOrderNumber(workType, workTypeCodeOverride?)` (§4.3).  Its
definition is not in the source snapshot — only its callers are
(the `POST /api/work-orders` handler calls it with two arguments) — so it is
modelled from the spec's algorithm: resolve the code, take
`max(storedCounter, latestFromOrders) + 1`, persist that value in the counter
table, and return `{code}-{zeroPad(next, 3)}`.  The work-order table itself is
not written (the caller inserts the record). -/
def generateWorkOrderNumber (db : DB) (workType : String)
    (override : Option String) : String × DB :=
  let code := resolveCode workType override
  let next := nextSeq db code
  (code ++ "-" ++ pad3 next, ⟨setCounter db.counters code next, db.orders⟩)

/-- Modelled from the spec: `previewNextWorkOrderNumber(workType)` (§4.4) —
the read-only variant computing what `generate` would return right now with
the same `max(storedCounter, latestFromOrders) + 1` formula, performing no
write; the state component of the result is the input state itself. -/
def previewNextWorkOrderNumber (db : DB) (workType : String) : String × DB :=
  let code := getWorkTypeCode workType
  (code ++ "-" ++ pad3 (nextSeq db code), db)

/-- The allocator-subsystem operations that mutate the counter table. -/
inductive AllocOp where
  | gen (workType : String) (override : Option String)
  | resetOne (code : String)
  | resetAll
deriving DecidableEq

/-- State transition of one allocator-subsystem operation. -/
def applyOp (db : DB) : AllocOp → DB
  | .gen wt ov => (generateWorkOrderNumber db wt ov).2
  | .resetOne c => ⟨resetWorkTypeCounter db.counters c, db.orders⟩
  | .resetAll => ⟨resetAllWorkTypeCounters db.counters, db.orders⟩

/-- Sequence numbers received by `n` successive `generateWorkOrderNumber`
calls for the same work type and override, in call order. -/
def issuedNums (db : DB) (wt : String) (ov : Option String) : Nat → List Nat
  | 0 => []
  | n + 1 =>
      nextSeq db (resolveCode wt ov) ::
        issuedNums (generateWorkOrderNumber db wt ov).2 wt ov n

/-- Outcome of the work-order creation endpoint, restricted to the
identifier-allocation concern. -/
inductive PostResult where
  | created (workOrderNo : String)
  | duplicateError
deriving DecidableEq

/-- Embeds the `work_order_no` branching of the `POST /api/work-orders`
handler: a missing or blank (whitespace-only) `work_order_no` triggers
allocator-based auto-generation and the new record is inserted; a non-blank
one that already exists yields a duplicate error with no insert and no other
state change; a non-blank fresh one is inserted as given, without invoking
the allocator.  Validation of the unrelated fields of the request is elided. -/
def postCreateWorkOrder (db : DB) (workOrderNo : Option String)
    (workType : String) (workTypeCode : Option String) : PostResult × DB :=
  let auto : PostResult × DB :=
    let r := generateWorkOrderNumber db workType workTypeCode
    (.created r.1, ⟨r.2.counters, r.2.orders ++ [r.1]⟩)
  match workOrderNo with
  | none => auto
  | some s =>
      if jsTrim s = "" then auto
      else if s ∈ db.orders then (.duplicateError, db)
      else (.created s, ⟨db.counters, db.orders ++ [s]⟩)

theorem getCounter_cons (k : String) (w : Nat) (rest : List (String × Nat)) (c : String) :
    getCounter ((k, w) :: rest) c = if k = c then w else getCounter rest c := by
  simp only [getCounter, lookupCounter]
  by_cases h : k = c
  · rw [if_pos h, if_pos h]; rfl
  · rw [if_neg h, if_neg h]

theorem getCounter_setCounter (cs : List (String × Nat)) (c c' : String) (v : Nat) :
    getCounter (setCounter cs c v) c' = if c' = c then v else getCounter cs c' := by
  induction cs with
  | nil =>
      simp only [setCounter, getCounter_cons]
      by_cases h : c' = c
      · rw [if_pos h.symm, if_pos h]
      · rw [if_neg (fun hh => h hh.symm), if_neg h]
  | cons p rest ih =>
      obtain ⟨k, w⟩ := p
      simp only [setCounter]
      by_cases h1 : k = c
      · rw [if_pos h1, getCounter_cons, getCounter_cons]
        by_cases h2 : c' = c
        · rw [if_pos h2.symm, if_pos h2]
        · rw [if_neg (fun hh => h2 hh.symm), if_neg h2,
            if_neg (fun hh => h2 (h1.symm.trans hh).symm)]
      · rw [if_neg h1, getCounter_cons, getCounter_cons, ih]
        by_cases h2 : k = c'
        · rw [if_pos h2, if_neg (fun hh => h1 (h2.trans hh)), if_pos h2]
        · rw [if_neg h2, if_neg h2]

theorem getCounter_reset (cs : List (String × Nat)) (x c : String) :
    getCounter (resetWorkTypeCounter cs x) c = if c = x then 0 else getCounter cs c := by
  induction cs with
  | nil =>
      simp only [resetWorkTypeCounter, List.map_nil]
      by_cases h : c = x
      · rw [if_pos h]; rfl
      · rw [if_neg h]
  | cons p rest ih =>
      obtain ⟨k, w⟩ := p
      simp only [resetWorkTypeCounter, List.map_cons] at ih ⊢
      by_cases h1 : k = x
      · rw [if_pos h1, getCounter_cons, getCounter_cons, ih]
        by_cases h2 : k = c
        · rw [if_pos h2, if_pos h2, if_pos (h2.symm.trans h1)]
        · rw [if_neg h2, if_neg h2]
      · rw [if_neg h1]
        show getCounter ((k, w) :: rest.map _) c = _
        rw [getCounter_cons, getCounter_cons, ih]
        by_cases h2 : k = c
        · rw [if_pos h2, if_pos h2, if_neg (fun hh => h1 (h2.trans hh))]
        · rw [if_neg h2, if_neg h2]

theorem getCounter_resetAll (cs : List (String × Nat)) (c : String) :
    getCounter (resetAllWorkTypeCounters cs) c = 0 := by
  induction cs with
  | nil => rfl
  | cons p rest ih =>
      obtain ⟨k, w⟩ := p
      simp only [resetAllWorkTypeCounters, List.map_cons] at ih ⊢
      rw [getCounter_cons, ih]
      by_cases h : k = c
      · rw [if_pos h]
      · rw [if_neg h]

theorem gen_counters (db : DB) (wt : String) (ov : Option String) :
    (generateWorkOrderNumber db wt ov).2.counters =
      setCounter db.counters (resolveCode wt ov) (nextSeq db (resolveCode wt ov)) := rfl

theorem gen_orders (db : DB) (wt : String) (ov : Option String) :
    (generateWorkOrderNumber db wt ov).2.orders = db.orders := rfl

theorem nextSeq_def (db : DB) (code : String) :
    nextSeq db code =
      max (getCounter db.counters code) (latestFromOrders code db.orders) + 1 := rfl

theorem nextSeq_gen (db : DB) (wt : String) (ov : Option String) :
    nextSeq (generateWorkOrderNumber db wt ov).2 (resolveCode wt ov) =
      nextSeq db (resolveCode wt ov) + 1 := by
  have hs : getCounter (generateWorkOrderNumber db wt ov).2.counters (resolveCode wt ov) =
      nextSeq db (resolveCode wt ov) := by
    rw [gen_counters, getCounter_setCounter, if_pos rfl]
  rw [nextSeq_def, hs, gen_orders, nextSeq_def]
  omega

theorem issuedNums_eq (wt : String) (ov : Option String) (n : Nat) :
    ∀ db : DB, issuedNums db wt ov n =
      (List.range n).map (fun i => nextSeq db (resolveCode wt ov) + i) := by
  induction n with
  | zero => intro db; rfl
  | succ n ih =>
      intro db
      rw [issuedNums, ih ((generateWorkOrderNumber db wt ov).2), nextSeq_gen,
        List.range_succ_eq_map, List.map_cons, List.map_map]
      refine congrArg₂ List.cons (by simp) (List.map_congr_left fun i _ => ?_)
      show nextSeq db (resolveCode wt ov) + 1 + i = nextSeq db (resolveCode wt ov) + (i + 1)
      omega

/-- C1: for every allocation, `generateWorkOrderNumber` computes the new
sequence number as `max(storedCounter, latestFromOrders) + 1` — the stored
counter reading as 0 when the row is absent — returns
`{code}-{pad3 next}`, and persists the new value in the counter table; in
particular, with no counter row for `X` and an existing order `X-007` it
returns `X-008`, and with stored counter 3 against a table whose max is 10 it
returns `X-011` and stores 11. -/
theorem C1_generate_max_reconciliation :
    (∀ (db : DB) (wt : String) (ov : Option String),
      (generateWorkOrderNumber db wt ov).1 =
        resolveCode wt ov ++ "-" ++
          pad3 (max (getCounter db.counters (resolveCode wt ov))
            (latestFromOrders (resolveCode wt ov) db.orders) + 1) ∧
      getCounter (generateWorkOrderNumber db wt ov).2.counters (resolveCode wt ov) =
        max (getCounter db.counters (resolveCode wt ov))
          (latestFromOrders (resolveCode wt ov) db.orders) + 1) ∧
    (generateWorkOrderNumber ⟨[], ["X-007"]⟩ "X" none).1 = "X-008" ∧
    (generateWorkOrderNumber ⟨[("X", 3)], ["X-010"]⟩ "X" none).1 = "X-011" ∧
    getCounter
      (generateWorkOrderNumber ⟨[("X", 3)], ["X-010"]⟩ "X" none).2.counters "X" = 11 := by
  refine ⟨fun db wt ov => ⟨rfl, ?_⟩, by decide, by decide, by decide⟩
  rw [gen_counters, getCounter_setCounter, if_pos rfl, nextSeq_def]

/-- C2: N allocations for the same category — serialized in an arbitrary
order by the counter-row lock, per the spec's concurrency model — each
receive a distinct sequence number, and starting from a state where neither
the counter table nor the work-order table has seen the category, the issued
numbers are exactly the contiguous run 1‥N with no duplicates. -/
theorem C2_contiguous_run (db : DB) (wt : String) (ov : Option String) (n : Nat)
    (h1 : getCounter db.counters (resolveCode wt ov) = 0)
    (h2 : latestFromOrders (resolveCode wt ov) db.orders = 0) :
    issuedNums db wt ov n = (List.range n).map (fun i => i + 1) ∧
    (issuedNums db wt ov n).Nodup ∧
    ∀ v, v ∈ issuedNums db wt ov n ↔ 1 ≤ v ∧ v ≤ n := by
  have he : issuedNums db wt ov n = (List.range n).map (fun i => i + 1) := by
    rw [issuedNums_eq wt ov n db]
    refine List.map_congr_left fun i _ => ?_
    rw [nextSeq_def, h1, h2]
    omega
  refine ⟨he, ?_, fun v => ?_⟩
  · rw [he]
    exact ((List.pairwise_lt_range n).map _ (fun a b hab => by omega)).imp Nat.ne_of_lt
  · rw [he]
    constructor
    · intro hv
      obtain ⟨i, hi, rfl⟩ := List.mem_map.mp hv
      have := List.mem_range.mp hi
      omega
    · intro hv
      exact List.mem_map.mpr ⟨v - 1, List.mem_range.mpr (by omega), by omega⟩

theorem C2_contiguous_run_witness :
    getCounter (DB.mk [] []).counters (resolveCode "w" (some "X")) = 0 ∧
    latestFromOrders (resolveCode "w" (some "X")) (DB.mk [] []).orders = 0 ∧
    issuedNums ⟨[], []⟩ "w" (some "X") 3 = (List.range 3).map (fun i => i + 1) :=
  ⟨by decide, by decide,
    (C2_contiguous_run ⟨[], []⟩ "w" (some "X") 3 (by decide) (by decide)).1⟩

/-- C3: after `resetWorkTypeCounter "X"`, if the work-order table's maximum
sequence for `X` is still 11 (it contains `X-011`), the next
`generateWorkOrderNumber` call for `X` returns `X-012`, not `X-001` — a reset
alone never causes sequence-number reuse while historical records remain. -/
theorem C3_reset_no_reuse (db : DB)
    (h : latestFromOrders "X" db.orders = 11) :
    (generateWorkOrderNumber (applyOp db (.resetOne "X")) "X" none).1 = "X-012" ∧
    (generateWorkOrderNumber (applyOp db (.resetOne "X")) "X" none).1 ≠ "X-001" := by
  have hc : (generateWorkOrderNumber (applyOp db (.resetOne "X")) "X" none).1
      = "X" ++ "-" ++ pad3 (nextSeq (applyOp db (.resetOne "X")) "X") := rfl
  have hs : nextSeq (applyOp db (.resetOne "X")) "X" = 12 := by
    rw [nextSeq_def]
    show max (getCounter (resetWorkTypeCounter db.counters "X") "X")
      (latestFromOrders "X" db.orders) + 1 = 12
    rw [getCounter_reset, if_pos rfl, h]
    omega
  rw [hc, hs]
  exact ⟨by decide, by decide⟩

theorem C3_reset_no_reuse_witness :
    latestFromOrders "X" (DB.mk [("X", 11)] ["X-011"]).orders = 11 ∧
    (generateWorkOrderNumber
      (applyOp ⟨[("X", 11)], ["X-011"]⟩ (.resetOne "X")) "X" none).1 = "X-012" :=
  ⟨by decide, (C3_reset_no_reuse ⟨[("X", 11)], ["X-011"]⟩ (by decide)).1⟩

/-- C4: when the optional second argument is provided and non-empty after
trimming, the returned identifier's category code is the (trimmed) override;
otherwise — override absent or blank — the code is derived from the work-type
name via the lookup. -/
theorem C4_code_override (db : DB) (wt o : String) :
    (jsTrim o ≠ "" →
      (generateWorkOrderNumber db wt (some o)).1 =
        jsTrim o ++ "-" ++ pad3 (nextSeq db (jsTrim o))) ∧
    (jsTrim o = "" →
      (generateWorkOrderNumber db wt (some o)).1 =
        getWorkTypeCode wt ++ "-" ++ pad3 (nextSeq db (getWorkTypeCode wt))) ∧
    (generateWorkOrderNumber db wt none).1 =
      getWorkTypeCode wt ++ "-" ++ pad3 (nextSeq db (getWorkTypeCode wt)) := by
  refine ⟨fun h => ?_, fun h => ?_, rfl⟩
  · show resolveCode wt (some o) ++ "-" ++ pad3 (nextSeq db (resolveCode wt (some o))) = _
    rw [resolveCode, if_pos h]
  · show resolveCode wt (some o) ++ "-" ++ pad3 (nextSeq db (resolveCode wt (some o))) = _
    rw [resolveCode, if_neg (fun hh => hh h)]

theorem C4_code_override_witness :
    jsTrim " X " ≠ "" ∧
    (generateWorkOrderNumber ⟨[], []⟩ "Electrical" (some " X ")).1 =
      jsTrim " X " ++ "-" ++ pad3 (nextSeq ⟨[], []⟩ (jsTrim " X ")) :=
  ⟨by decide, (C4_code_override ⟨[], []⟩ "Electrical" " X ").1 (by decide)⟩

/-- C5: `previewNextWorkOrderNumber` is side-effect-free — the state it
returns is the input state, so two consecutive calls with no intervening
allocation return the same identifier, no stored counter changes, and the
identifier is exactly what `generateWorkOrderNumber` would return on the same
state. -/
theorem C5_preview_pure (db : DB) (wt : String) :
    (previewNextWorkOrderNumber db wt).2 = db ∧
    (previewNextWorkOrderNumber (previewNextWorkOrderNumber db wt).2 wt).1 =
      (previewNextWorkOrderNumber db wt).1 ∧
    (∀ c, getCounter (previewNextWorkOrderNumber db wt).2.counters c =
      getCounter db.counters c) ∧
    (previewNextWorkOrderNumber db wt).1 = (generateWorkOrderNumber db wt none).1 :=
  ⟨rfl, rfl, fun _ => rfl, rfl⟩

/-- C6: for every starting state and category, N sequential
`generateWorkOrderNumber` calls (no interleaved resets) yield strictly
increasing sequence numbers with no repeated value. -/
theorem C6_sequential_strictly_increasing (db : DB) (wt : String) (ov : Option String)
    (n : Nat) :
    List.Pairwise (· < ·) (issuedNums db wt ov n) ∧ (issuedNums db wt ov n).Nodup := by
  rw [issuedNums_eq]
  constructor
  · exact (List.pairwise_lt_range n).map _ (fun a b hab => by omega)
  · exact ((List.pairwise_lt_range n).map _ (fun a b hab => by omega)).imp Nat.ne_of_lt

/-- C7: the stored counter of every category (a natural number, hence always
non-negative) is non-decreasing under every allocation, and the only
operations that lower it are the administrative resets, which set it to 0. -/
theorem C7_counter_invariant (db : DB) (c : String) :
    (∀ wt ov, getCounter db.counters c ≤ getCounter (applyOp db (.gen wt ov)).counters c) ∧
    (∀ x, getCounter (applyOp db (.resetOne x)).counters c =
      if c = x then 0 else getCounter db.counters c) ∧
    getCounter (applyOp db .resetAll).counters c = 0 := by
  refine ⟨fun wt ov => ?_, fun x => getCounter_reset db.counters x c,
    getCounter_resetAll db.counters c⟩
  show getCounter db.counters c ≤
    getCounter (generateWorkOrderNumber db wt ov).2.counters c
  rw [gen_counters, getCounter_setCounter]
  by_cases h : c = resolveCode wt ov
  · rw [if_pos h, nextSeq_def, h]
    omega
  · rw [if_neg h]

/-- C8: from an empty counter table and empty work-order table, with
`"Electrical"` mapping to `"E"`, the first `generateWorkOrderNumber` call
returns `"E-001"` and lazily creates the counter row with value 1; the second
call returns `"E-002"`. -/
theorem C8_first_allocations :
    (generateWorkOrderNumber ⟨[], []⟩ "Electrical" none).1 = "E-001" ∧
    lookupCounter
      (generateWorkOrderNumber ⟨[], []⟩ "Electrical" none).2.counters "E" = some 1 ∧
    (generateWorkOrderNumber
      (generateWorkOrderNumber ⟨[], []⟩ "Electrical" none).2 "Electrical" none).1 =
      "E-002" := by
  decide

/-- C9: the identifier's sequence is zero-padded to 3 digits and never
truncated — 6 formats as `"006"`, 1000 as `"1000"`; the decimal digits are
always a suffix of the formatted string, a rendering already 3 or more
characters wide is returned unchanged (the format widens, with no
re-padding), and the padded width is exactly `max 3` the decimal width. -/
theorem C9_padding :
    pad3 6 = "006" ∧ pad3 1000 = "1000" ∧
    (∀ n : Nat, (toString n).data <:+ (pad3 n).data) ∧
    (∀ n : Nat, 3 ≤ (toString n).data.length → pad3 n = toString n) ∧
    (∀ n : Nat, (pad3 n).data.length = max 3 (toString n).data.length) := by
  refine ⟨by decide, by decide, fun n => ?_, fun n h => ?_, fun n => ?_⟩
  · rw [pad3, padStart3]
    by_cases h : 3 ≤ (toString n).data.length
    · rw [if_pos h]
    · rw [if_neg h]
      exact ⟨List.replicate (3 - (toString n).data.length) '0', rfl⟩
  · rw [pad3, padStart3, if_pos h]
  · rw [pad3, padStart3]
    by_cases h : 3 ≤ (toString n).data.length
    · rw [if_pos h, Nat.max_eq_right h]
    · rw [if_neg h]
      show (List.replicate (3 - (toString n).data.length) '0' ++ (toString n).data).length =
        max 3 (toString n).data.length
      rw [List.length_append, List.length_replicate]
      omega

theorem C9_padding_witness :
    3 ≤ (toString 1000).data.length ∧ pad3 1000 = toString 1000 :=
  ⟨by decide, C9_padding.2.2.2.1 1000 (by decide)⟩

/-- C10: the work-order creation endpoint auto-generates an identifier via
the allocator exactly when the caller supplies no `work_order_no` or a blank
one; a non-blank `work_order_no` that already exists yields a duplicate
error with no inserted record and the state unchanged, and a non-blank fresh
one is inserted as given without touching any counter. -/
theorem C10_manual_number_branching (db : DB) (wt : String) (cd : Option String)
    (s : String) :
    (postCreateWorkOrder db none wt cd).1 =
      PostResult.created (generateWorkOrderNumber db wt cd).1 ∧
    (jsTrim s = "" → (postCreateWorkOrder db (some s) wt cd).1 =
      PostResult.created (generateWorkOrderNumber db wt cd).1) ∧
    (jsTrim s ≠ "" → s ∈ db.orders →
      postCreateWorkOrder db (some s) wt cd = (PostResult.duplicateError, db)) ∧
    (jsTrim s ≠ "" → s ∉ db.orders →
      (postCreateWorkOrder db (some s) wt cd).1 = PostResult.created s ∧
      (postCreateWorkOrder db (some s) wt cd).2.counters = db.counters) := by
  refine ⟨rfl, fun h => ?_, fun h hm => ?_, fun h hm => ?_⟩
  · simp only [postCreateWorkOrder, if_pos h]
  · simp only [postCreateWorkOrder, if_neg h, if_pos hm]
  · simp only [postCreateWorkOrder, if_neg h, if_neg hm]
    constructor <;> trivial

theorem C10_manual_number_branching_witness :
    jsTrim "A-001" ≠ "" ∧ "A-001" ∈ (DB.mk [] ["A-001"]).orders ∧
    postCreateWorkOrder ⟨[], ["A-001"]⟩ (some "A-001") "w" none =
      (PostResult.duplicateError, ⟨[], ["A-001"]⟩) :=
  ⟨by decide, by decide,
    (C10_manual_number_branching ⟨[], ["A-001"]⟩ "w" none "A-001").2.2.1
      (by decide) (by decide)⟩
